import Mathlib

/-!
Formal model of the asteroids game core (`src/components/Game/game.ts`).

JavaScript numbers are modelled as real numbers; the one thrown exception
(the bullet constructor's zero-length-direction error) is modelled by an
`Option` result, `none` meaning the constructor threw.  The simulation
state (`Game`) mirrors the fields of the `Game` class; the per-tick
algorithm `updateG` mirrors `Game.update` phase by phase.  `Math.random`
is modelled by an oracle argument that supplies the position and velocity
of each freshly spawned asteroid.  The canvas pixel dimensions always
equal the `dimensions` field in the source (the constructor copies them
from the canvas and `resize` writes both), so the model keeps a single
`dimensions` field.
-/

namespace AsteroidsGame

/-- 2-D point (game.ts lines 1-4); also used for velocity vectors, as in
the source, which stores velocities in the `Position` shape. -/
structure Position where
  x : ℝ
  y : ℝ

/-- Width/height pair (game.ts lines 6-9). -/
structure Dimensions where
  width : ℝ
  height : ℝ

/-- Math.hypot on two arguments: square root of the sum of squares. -/
noncomputable def hypot (x y : ℝ) : ℝ := Real.sqrt (x ^ 2 + y ^ 2)

/-- Bullet entity (game.ts lines 50-90). -/
structure Bullet where
  position : Position
  size : Dimensions
  velocity : Position
  speed : ℝ
  color : String

/-- Bullet constructor (game.ts lines 58-72): speed 1000, color red; the
raw direction is normalized and scaled by the speed.  A direction of
length `<= 0` makes the constructor throw, modelled as `none`. -/
noncomputable def mkBullet (position : Position) (size : Dimensions) (d : ℝ × ℝ) :
    Option Bullet :=
  let speed : ℝ := 1000
  let length := hypot d.1 d.2
  if length ≤ 0 then none
  else
    some { position := position, size := size, speed := speed, color := "red",
           velocity := { x := d.1 / length * speed, y := d.2 / length * speed } }

/-- Linear motion of a bullet (game.ts lines 86-89): position advances by
velocity times `deltaTime / 1000`. -/
noncomputable def Bullet.update (b : Bullet) (deltaTime : ℝ) : Bullet :=
  { b with position := { x := b.position.x + b.velocity.x * (deltaTime / 1000),
                         y := b.position.y + b.velocity.y * (deltaTime / 1000) } }

/-- Player entity (game.ts lines 92-163). -/
structure Player where
  position : Position
  size : Dimensions
  velocity : Position
  speed : ℝ
  isJumping : Bool
  color : String
  health : ℝ

/-- Player constructor (game.ts lines 102-110): size 30x30, zero velocity,
speed 500, health 1. -/
def mkPlayer (position : Position) : Player :=
  { position := position, size := { width := 30, height := 30 },
    velocity := { x := 0, y := 0 }, speed := 500, isJumping := false,
    color := "blue", health := 1 }

/-- Linear motion of the player (game.ts lines 112-115). -/
noncomputable def Player.update (p : Player) (deltaTime : ℝ) : Player :=
  { p with position := { x := p.position.x + p.velocity.x * (deltaTime / 1000),
                         y := p.position.y + p.velocity.y * (deltaTime / 1000) } }

/-- Zero the player's velocity (game.ts lines 129-132). -/
def Player.stopMoving (p : Player) : Player :=
  { p with velocity := { x := 0, y := 0 } }

/-- Player.move (game.ts lines 117-127): a zero vector stops the player;
otherwise the velocity is set to the normalized direction times the speed
constant. -/
noncomputable def Player.move (p : Player) (d : ℝ × ℝ) : Player :=
  let p1 := if d.1 = 0 ∧ d.2 = 0 then p.stopMoving else p
  let length := hypot d.1 d.2
  if 0 < length then
    { p1 with velocity := { x := d.1 / length * p1.speed, y := d.2 / length * p1.speed } }
  else p1

/-- Player.fire (game.ts lines 134-141): constructs a 10x10 bullet whose
top-left corner is the player's center minus half the bullet size, with
the given raw direction. -/
noncomputable def Player.fire (p : Player) (d : ℝ × ℝ) : Option Bullet :=
  let size : Dimensions := { width := 10, height := 10 }
  mkBullet { x := p.position.x + p.size.width / 2 - size.width / 2,
             y := p.position.y + p.size.height / 2 - size.height / 2 } size d

/-- Player.hit (game.ts lines 143-145); the asteroid argument of the
source is unused there and omitted here. -/
noncomputable def Player.hit (p : Player) : Player :=
  { p with health := max 0 (p.health - 0.2) }

/-- Player.heal (game.ts lines 147-149); the asteroid argument of the
source is unused there and omitted here. -/
noncomputable def Player.heal (p : Player) : Player :=
  { p with health := min 1 (p.health + 0.01) }

/-- Player.isAlive (game.ts lines 151-153): health strictly positive. -/
def Player.isAlive (p : Player) : Prop := p.health > 0

noncomputable instance (p : Player) : Decidable p.isAlive := by
  unfold Player.isAlive; infer_instance

/-- Asteroid entity (game.ts lines 165-236). -/
structure Asteroid where
  size : Dimensions
  position : Position
  velocity : Position
  color : String
  startTimestamp : ℝ
  deathTimestamp : Option ℝ
  fadeInDuration : ℝ
  fadeOutDuration : ℝ

/-- Asteroid constructor (game.ts lines 190-198): size 15x15, color white,
fade-in 200 ms, fade-out 2000 ms, no death timestamp. -/
def mkAsteroid (position velocity : Position) (timestamp : ℝ) : Asteroid :=
  { position := position, size := { width := 15, height := 15 },
    velocity := velocity, color := "white", startTimestamp := timestamp,
    deathTimestamp := none, fadeInDuration := 200, fadeOutDuration := 2000 }

/-- Asteroid.hit (game.ts lines 200-204): zero the velocity, set the color
to yellow, record the death timestamp.  Unconditional: a second call
overwrites the existing death timestamp. -/
def Asteroid.hit (a : Asteroid) (timestamp : ℝ) : Asteroid :=
  { a with velocity := { x := 0, y := 0 }, color := "yellow",
           deathTimestamp := some timestamp }

/-- Asteroid.intersectPlayer (game.ts lines 206-210): like `hit` but with
color green. -/
def Asteroid.intersectPlayer (a : Asteroid) (timestamp : ℝ) : Asteroid :=
  { a with velocity := { x := 0, y := 0 }, color := "green",
           deathTimestamp := some timestamp }

/-- Linear motion of an asteroid (game.ts lines 221-224). -/
noncomputable def Asteroid.update (a : Asteroid) (deltaTime : ℝ) : Asteroid :=
  { a with position := { x := a.position.x + a.velocity.x * (deltaTime / 1000),
                         y := a.position.y + a.velocity.y * (deltaTime / 1000) } }

/-- Asteroid.getFade (game.ts lines 226-235).  The source guard is
`if (!this.deathTimestamp)`, which by JavaScript falsiness is true both
when `deathTimestamp` is `undefined` and when it is the number `0`; hence
the fade-in branch is also taken for a death timestamp of exactly 0. -/
noncomputable def Asteroid.getFade (a : Asteroid) (timestamp : ℝ) : ℝ :=
  match a.deathTimestamp with
  | none => min ((timestamp - a.startTimestamp) / a.fadeInDuration) 1
  | some d =>
      if d = 0 then min ((timestamp - a.startTimestamp) / a.fadeInDuration) 1
      else 1 - min ((timestamp - d) / a.fadeOutDuration) 1

/-- Host keyboard snapshot: the `keys` object maps key identifiers to a
pressed flag.  The host adds an entry on keydown and flips it to false on
keyup, so keys are unique; modelled as an association list with
first-match lookup. -/
def Keys : Type := List (String × Bool)

/-- Reading `keys[k]` as a truthiness test: a missing entry (undefined)
is falsy. -/
def Keys.pressedKey (keys : Keys) (k : String) : Bool :=
  match keys.find? (fun e => e.1 == k) with
  | some e => e.2
  | none => false

/-- `Object.values(keys).some(Boolean)` (game.ts line 449). -/
def Keys.anyPressed (keys : Keys) : Bool := keys.any (fun e => e.2)

/-- One touch point: only `clientX`/`clientY` are read by the game. -/
structure Touch where
  clientX : ℝ
  clientY : ℝ

/-- A touch event: the list of active touch points. -/
structure TouchEvent where
  touches : List Touch

/-- Randomness oracle for a single `addAsteroids` call: the i-th freshly
spawned asteroid's (position, velocity), standing in for the
`Math.random` draws of `Asteroid.getRandomPosition` / `getRandomVelocity`
(game.ts lines 176-188). -/
def Oracle : Type := ℕ → Position × Position

/-- KeyboardEventVisitor.visitPlayer (game.ts lines 296-321): if the
player is dead, stop it and fire nothing; otherwise steer from the four
arrow keys (each contributing plus or minus one on one axis), then fire
from the w/a/s/d keys under the guard that the accumulated direction is
not the zero vector.  Returns the mutated player and the optional new
bullet. -/
noncomputable def keyboardVisitPlayer (keys : Keys) (p : Player) :
    Player × Option Bullet :=
  if ¬ p.isAlive then (p.stopMoving, none)
  else
    let mv : ℝ × ℝ :=
      ((if keys.pressedKey "ArrowLeft" then (-1 : ℝ) else 0) +
         (if keys.pressedKey "ArrowRight" then (1 : ℝ) else 0),
       (if keys.pressedKey "ArrowUp" then (-1 : ℝ) else 0) +
         (if keys.pressedKey "ArrowDown" then (1 : ℝ) else 0))
    let p1 := p.move mv
    let dir : ℝ × ℝ :=
      ((if keys.pressedKey "a" then (-1 : ℝ) else 0) +
         (if keys.pressedKey "d" then (1 : ℝ) else 0),
       (if keys.pressedKey "w" then (-1 : ℝ) else 0) +
         (if keys.pressedKey "s" then (1 : ℝ) else 0))
    if dir.1 ≠ 0 ∨ dir.2 ≠ 0 then (p1, p1.fire dir) else (p1, none)

/-- The pair `[gunDelta.x / length, gunDelta.y / length]` computed by
`TouchEventVisitor.visitPlayer` (game.ts lines 348-355), with JavaScript
float semantics made explicit: `length = Math.hypot(dx, dy)` is zero
exactly when `dx = dy = 0`, and in that case both quotients are `0/0`,
i.e. NaN.  We return `none` for that NaN pair and `some` of the real
quotients otherwise. -/
noncomputable def touchGunDirection (gunPointedAt : Position) (playerPos : Position) :
    Option (ℝ × ℝ) :=
  let dx := gunPointedAt.x - playerPos.x
  let dy := gunPointedAt.y - playerPos.y
  if hypot dx dy = 0 then none
  else some (dx / hypot dx dy, dy / hypot dx dy)

/-- The guard `direction[0] !== 0 || direction[1] !== 0` (game.ts line
357) applied to the computed direction: for the NaN pair the JavaScript
comparison `NaN !== 0` is true, so the guard passes. -/
def touchFireGuardPasses : Option (ℝ × ℝ) → Prop
  | none => True
  | some v => v.1 ≠ 0 ∨ v.2 ≠ 0

/-- TouchEventVisitor.visitPlayer (game.ts lines 330-362): the first
touch point steers (normalized vector from the player position to the
touch), the second aims the gun under the `!== 0` guard.  Two degenerate
NaN cases of the source are noted rather than bit-reproduced, since no
claim depends on their products: (1) a first touch exactly at the player
position makes `move` receive a NaN pair, which leaves the velocity
unchanged in JS, while the Lean convention `0/0 = 0` routes it to
`stopMoving`; (2) a second touch exactly at the player position makes the
guard pass on a NaN pair and `fire` build a bullet with NaN velocity (see
`touchGunDirection`); that bullet never overlaps anything and is never
removed offscreen, so it affects no collision, count, or mode state; here
the fire result is `none` in that case. -/
noncomputable def touchVisitPlayer (touch : Option TouchEvent) (p : Player) :
    Player × Option Bullet :=
  let touches := (touch.map TouchEvent.touches).getD []
  let firstTouch := touches[0]?
  let gun := touches[1]?
  let p1 :=
    match firstTouch with
    | some pt =>
        let dx := pt.clientX - p.position.x
        let dy := pt.clientY - p.position.y
        p.move (dx / hypot dx dy, dy / hypot dx dy)
    | none => p.move (0, 0)
  let res : Option Bullet :=
    match gun with
    | some gpt =>
        match touchGunDirection { x := gpt.clientX, y := gpt.clientY } p1.position with
        | some dir => if dir.1 ≠ 0 ∨ dir.2 ≠ 0 then p1.fire dir else none
        | none => none
    | none => none
  (p1, res)

/-- Simulation state: the fields of the `Game` class (game.ts lines
365-375) minus the canvas/context handles.  `destroyed` counts destroyed
asteroids and only ever increments or resets, hence a natural number. -/
structure Game where
  player : Player
  lastTime : ℝ
  bullets : List Bullet
  asteroids : List Asteroid
  destroyedAsteroid : List Asteroid
  dimensions : Dimensions
  isTouch : Bool
  destroyed : ℕ

/-- Game.setInputMode (game.ts lines 406-408). -/
def Game.setInputMode (g : Game) (b : Bool) : Game := { g with isTouch := b }

/-- Game.addAsteroids (game.ts lines 425-434): append `count` fresh
asteroids, each with oracle-supplied position and velocity and start
timestamp `lastTime`. -/
def addAsteroids (o : Oracle) (count : ℕ) (g : Game) : Game :=
  { g with asteroids :=
      g.asteroids ++ (List.range count).map fun i => mkAsteroid (o i).1 (o i).2 g.lastTime }

/-- Game constructor state (game.ts lines 377-390): player centered in
the viewport, empty collections, zero score, input mode keyboard, then a
batch of 10 asteroids.  `now` models `performance.now()`. -/
noncomputable def initialGame (dims : Dimensions) (now : ℝ) (o : Oracle) : Game :=
  addAsteroids o 10
    { player := mkPlayer { x := dims.width / 2, y := dims.height / 2 },
      lastTime := now, bullets := [], asteroids := [], destroyedAsteroid := [],
      dimensions := dims, isTouch := false, destroyed := 0 }

/-- Game.restart / Game.initialState (game.ts lines 410-423): full reset
except for `dimensions` and the `isTouch` flag, which the source does not
touch there. -/
noncomputable def restartG (now : ℝ) (o : Oracle) (g : Game) : Game :=
  addAsteroids o 10
    { g with player := mkPlayer { x := g.dimensions.width / 2, y := g.dimensions.height / 2 },
             lastTime := now, bullets := [], asteroids := [],
             destroyedAsteroid := [], destroyed := 0 }

/-- Game.resize (game.ts lines 400-404): store the new dimensions (the
canvas pixel size mirrors them). -/
def resizeG (dims : Dimensions) (g : Game) : Game := { g with dimensions := dims }

/-- Game.checkCollision (game.ts lines 552-559): strict axis-aligned
bounding-box overlap. -/
def checkCollision (p1 : Position) (s1 : Dimensions) (p2 : Position) (s2 : Dimensions) :
    Prop :=
  p1.x < p2.x + s2.width ∧ p1.x + s1.width > p2.x ∧
    p1.y < p2.y + s2.height ∧ p1.y + s1.height > p2.y

noncomputable instance (p1 : Position) (s1 : Dimensions) (p2 : Position) (s2 : Dimensions) :
    Decidable (checkCollision p1 s1 p2 s2) := by
  unfold checkCollision; infer_instance

/-- Game.isOffscreen (game.ts lines 561-566), against the viewport
bounds. -/
def isOffscreen (bounds : Dimensions) (position : Position) : Prop :=
  position.x < 0 ∨ position.x > bounds.width ∨
    position.y < 0 ∨ position.y > bounds.height

noncomputable instance (bounds : Dimensions) (position : Position) :
    Decidable (isOffscreen bounds position) := by
  unfold isOffscreen; infer_instance

/-- The input-mode step of Game.update (game.ts lines 445-451): first a
present touch event sets touch mode, then any currently pressed key sets
keyboard mode; the two ifs are independent, so the keyboard write runs
last. -/
def modePhase (keys : Keys) (touch : Option TouchEvent) (g : Game) : Game :=
  let g1 := if touch.isSome then g.setInputMode true else g
  if keys.anyPressed then g1.setInputMode false else g1

/-- The input-dispatch step of Game.update (game.ts lines 453-458): the
active interpreter visits the player (both visitors implement
`visitPlayer`, so the dynamic `visit${type}` lookup of `accept` always
finds the callback and the dispatch is a direct call); a returned bullet
is appended to the live bullets. -/
noncomputable def inputPhase (keys : Keys) (touch : Option TouchEvent) (g : Game) : Game :=
  let pb := if g.isTouch then touchVisitPlayer touch g.player
            else keyboardVisitPlayer keys g.player
  { g with player := pb.1, bullets := g.bullets ++ pb.2.toList }

/-- Player integration step (game.ts line 460). -/
noncomputable def playerIntegratePhase (dt : ℝ) (g : Game) : Game :=
  { g with player := g.player.update dt }

/-- Offscreen removal (game.ts lines 462-472): bullets are filtered, then
asteroids, then bullets a second time with a literally identical inline
bound check (the duplicated filter is a no-op but kept for fidelity). -/
noncomputable def offscreenPhase (g : Game) : Game :=
  let g5 := { g with bullets := g.bullets.filter fun b => !decide (isOffscreen g.dimensions b.position) }
  let g6 := { g5 with asteroids := g5.asteroids.filter fun a => !decide (isOffscreen g5.dimensions a.position) }
  { g6 with bullets := g6.bullets.filter fun b => !decide (isOffscreen g6.dimensions b.position) }

/-- One bullet's pass of the bullet-asteroid sweep (game.ts lines
476-487).  The source scans the live asteroids by descending index and
splices out each colliding one, so every asteroid is examined exactly
once against this bullet: the survivors are the non-colliding asteroids
in order (a filter), and the colliding ones are pushed onto
`destroyedAsteroid` in descending-index order (the reverse of their list
order), each healed-for and counted, and marked hit at `lastTime` after
being pushed (the push stores a reference, so the stored asteroid is the
marked one). -/
noncomputable def bulletSweep1 (b : Bullet) (g : Game) : Game :=
  let hits := g.asteroids.filter fun a => decide (checkCollision b.position b.size a.position a.size)
  { g with
    asteroids := g.asteroids.filter fun a => !decide (checkCollision b.position b.size a.position a.size),
    player := hits.foldl (fun pl _ => pl.heal) g.player,
    destroyedAsteroid := g.destroyedAsteroid ++ hits.reverse.map (fun a => a.hit g.lastTime),
    destroyed := g.destroyed + hits.length }

/-- The full bullet-asteroid sweep: the outer `for...of` loop over the
(unchanging) bullet list. -/
noncomputable def bulletsSweep (g : Game) : Game :=
  g.bullets.foldl (fun acc b => bulletSweep1 b acc) g

/-- The player-asteroid sweep (game.ts lines 489-499), with the same
descending-index splice-while-scanning pattern as `bulletSweep1`; each
colliding asteroid is marked `intersectPlayer` at `lastTime`, damages the
player, and is moved to `destroyedAsteroid` with the counter
incremented.  The collision test reads only the player's position and
size, which the interleaved `player.hit` calls do not change, so the
filtered partition is exact. -/
noncomputable def playerSweep (g : Game) : Game :=
  let hits := g.asteroids.filter fun a => decide (checkCollision g.player.position g.player.size a.position a.size)
  { g with
    asteroids := g.asteroids.filter fun a => !decide (checkCollision g.player.position g.player.size a.position a.size),
    player := hits.foldl (fun pl _ => pl.hit) g.player,
    destroyedAsteroid := g.destroyedAsteroid ++ hits.reverse.map (fun a => a.intersectPlayer g.lastTime),
    destroyed := g.destroyed + hits.length }

/-- Bullet and asteroid integration (game.ts lines 501-502). -/
noncomputable def entitiesIntegratePhase (dt : ℝ) (g : Game) : Game :=
  { g with bullets := g.bullets.map (fun b => b.update dt),
           asteroids := g.asteroids.map (fun a => a.update dt) }

/-- Spawn-floor check (game.ts lines 504-506): below 8 live asteroids, a
batch of `10 * (1 + floor(destroyed / 50))` is spawned. -/
def spawnFloorCheck (o : Oracle) (g : Game) : Game :=
  if g.asteroids.length < 8 then addAsteroids o (10 * (1 + g.destroyed / 50)) g else g

/-- Game.update (game.ts lines 437-507).  Dead player: only the restart
trigger (Enter pressed, or a touch event with exactly three points) is
checked; otherwise the state is returned untouched.  Alive player: the
phases run in source order. -/
noncomputable def updateG (dt : ℝ) (keys : Keys) (touch : Option TouchEvent)
    (o : Oracle) (now : ℝ) (g : Game) : Game :=
  if ¬ g.player.isAlive then
    if keys.pressedKey "Enter" = true ∨ touch.map (fun te => te.touches.length) = some 3 then
      restartG now o g
    else g
  else
    spawnFloorCheck o
      (entitiesIntegratePhase dt
        (playerSweep
          (bulletsSweep
            (offscreenPhase
              (playerIntegratePhase dt
                (inputPhase keys touch
                  (modePhase keys touch g)))))))

/-- Game.tick (game.ts lines 392-398): compute the elapsed time, store
the new timestamp, then update.  The render phase only draws and is not
part of the state. -/
noncomputable def tickG (timestamp : ℝ) (keys : Keys) (touch : Option TouchEvent)
    (o : Oracle) (now : ℝ) (g : Game) : Game :=
  updateG (timestamp - g.lastTime) keys touch o now { g with lastTime := timestamp }

/-- The destroyed-asteroid count printed by Game.paintUI (game.ts line
532): the length of the destroyed/fading collection. -/
def scoreReadoutCount (g : Game) : ℕ := g.destroyedAsteroid.length

/-- Reachable simulation states: the constructor state, and anything the
host can produce from one through `tick` and `resize` calls with
arbitrary inputs and random draws. -/
inductive Reachable : Game → Prop where
  | init : ∀ (dims : Dimensions) (now : ℝ) (o : Oracle), Reachable (initialGame dims now o)
  | tick : ∀ (g : Game) (t : ℝ) (keys : Keys) (touch : Option TouchEvent) (o : Oracle) (now : ℝ),
      Reachable g → Reachable (tickG t keys touch o now g)
  | resize : ∀ (g : Game) (dims : Dimensions), Reachable g → Reachable (resizeG dims g)

/-- Fixed trivial oracle used for concrete witness states. -/
def oracle0 : Oracle := fun _ => ({ x := 0, y := 0 }, { x := 0, y := 0 })

/-- Concrete alive game state with a previously-set touch mode of
keyboard, used to exercise the input-mode step. -/
def modeDemoGame : Game :=
  { player := mkPlayer { x := 0, y := 0 }, lastTime := 0, bullets := [],
    asteroids := [], destroyedAsteroid := [], dimensions := { width := 800, height := 600 },
    isTouch := false, destroyed := 0 }

/-- Concrete key snapshot with one (non-directional) key held down. -/
def demoKeys : Keys := [("q", true)]

/-- Concrete touch event with no touch points; any touch event present in
a tick triggers the touch-mode write. -/
def demoTouch : TouchEvent := { touches := [] }

/-- Concrete dead-player game state (health 0). -/
def deadGame : Game :=
  { player := { mkPlayer { x := 0, y := 0 } with health := 0 }, lastTime := 5,
    bullets := [], asteroids := [], destroyedAsteroid := [],
    dimensions := { width := 800, height := 600 }, isTouch := false, destroyed := 0 }

/-- Concrete game state matching the spec's batch-size example: 7 live
asteroids and 55 cumulative destroyed. -/
def batchDemoGame : Game :=
  { player := mkPlayer { x := 0, y := 0 }, lastTime := 0, bullets := [],
    asteroids := (List.range 7).map fun _ => mkAsteroid { x := 0, y := 0 } { x := 0, y := 0 } 0,
    destroyedAsteroid := [], dimensions := { width := 800, height := 600 },
    isTouch := false, destroyed := 55 }

/-- Concrete asteroid killed at timestamp 1000, for fade witnesses. -/
def fadeDemoAsteroid : Asteroid :=
  (mkAsteroid { x := 0, y := 0 } { x := 1, y := 2 } 100).hit 1000

/-- Concrete asteroid killed at timestamp exactly 0: its death timestamp
is falsy in the source's `!this.deathTimestamp` guard. -/
def zeroDeathAsteroid : Asteroid :=
  (mkAsteroid { x := 0, y := 0 } { x := 1, y := 1 } 0).hit 0

/-- A damage or heal event applied to the ship. -/
inductive HealthOp where
  | damage : HealthOp
  | heal : HealthOp

/-- Apply one health event through the source mutators
`Player.hit` / `Player.heal`. -/
noncomputable def applyHealthOp (p : Player) : HealthOp → Player
  | HealthOp.damage => p.hit
  | HealthOp.heal => p.heal

/-- Fold an arbitrary finite sequence of damage/heal events over a
player. -/
noncomputable def runHealthOps (p : Player) (ops : List HealthOp) : Player :=
  ops.foldl applyHealthOp p

end AsteroidsGame

namespace AsteroidsGame

/-! Helper lemmas shared by the claim theorems. -/

theorem hypot_nonneg (x y : ℝ) : 0 ≤ hypot x y := Real.sqrt_nonneg _

theorem hypot_eq_zero_iff (x y : ℝ) : hypot x y = 0 ↔ x = 0 ∧ y = 0 := by
  unfold hypot
  rw [Real.sqrt_eq_zero (by positivity)]
  constructor
  · intro h
    constructor
    · nlinarith [sq_nonneg x, sq_nonneg y]
    · nlinarith [sq_nonneg x, sq_nonneg y]
  · rintro ⟨hx, hy⟩
    rw [hx, hy]
    ring

theorem hypot_pos_of_ne (x y : ℝ) (h : ¬(x = 0 ∧ y = 0)) : 0 < hypot x y := by
  rcases lt_or_eq_of_le (hypot_nonneg x y) with hlt | heq
  · exact hlt
  · exact absurd ((hypot_eq_zero_iff x y).mp heq.symm) h

/-- C1: for every non-zero direction vector d, `fire(d)` returns a
projectile whose velocity has magnitude exactly the projectile speed
constant 1000, whose velocity direction is the normalized d (velocity
divided by the speed equals d divided by its length), and whose box is
centered on the ship's center. -/
theorem fire_speed_direction_center (p : Player) (d : ℝ × ℝ) (hd : d ≠ (0, 0)) :
    ∃ b : Bullet, p.fire d = some b ∧
      hypot b.velocity.x b.velocity.y = 1000 ∧
      b.velocity.x / 1000 = d.1 / hypot d.1 d.2 ∧
      b.velocity.y / 1000 = d.2 / hypot d.1 d.2 ∧
      b.position.x + b.size.width / 2 = p.position.x + p.size.width / 2 ∧
      b.position.y + b.size.height / 2 = p.position.y + p.size.height / 2 := by
  have hne : ¬(d.1 = 0 ∧ d.2 = 0) := by
    intro h
    exact hd (Prod.ext h.1 h.2)
  have hL : 0 < hypot d.1 d.2 := hypot_pos_of_ne d.1 d.2 hne
  refine ⟨{ position := { x := p.position.x + p.size.width / 2 - 10 / 2,
                          y := p.position.y + p.size.height / 2 - 10 / 2 },
            size := { width := 10, height := 10 }, speed := 1000, color := "red",
            velocity := { x := d.1 / hypot d.1 d.2 * 1000,
                          y := d.2 / hypot d.1 d.2 * 1000 } },
      ?_, ?_, ?_, ?_, ?_, ?_⟩
  · show p.fire d = some _
    simp only [Player.fire, mkBullet]
    rw [if_neg (not_le.mpr hL)]
  · show hypot (d.1 / hypot d.1 d.2 * 1000) (d.2 / hypot d.1 d.2 * 1000) = 1000
    have key : (d.1 / hypot d.1 d.2 * 1000) ^ 2 + (d.2 / hypot d.1 d.2 * 1000) ^ 2
        = (1000 / hypot d.1 d.2) ^ 2 * (d.1 ^ 2 + d.2 ^ 2) := by ring
    have h1000L : (0 : ℝ) < 1000 / hypot d.1 d.2 := div_pos (by norm_num) hL
    calc hypot (d.1 / hypot d.1 d.2 * 1000) (d.2 / hypot d.1 d.2 * 1000)
        = Real.sqrt ((1000 / hypot d.1 d.2) ^ 2 * (d.1 ^ 2 + d.2 ^ 2)) := by
          unfold hypot at key ⊢
          rw [key]
      _ = (1000 / hypot d.1 d.2) * hypot d.1 d.2 := by
          rw [Real.sqrt_mul (sq_nonneg _), Real.sqrt_sq (le_of_lt h1000L)]
          rfl
      _ = 1000 := div_mul_cancel₀ 1000 (ne_of_gt hL)
  · show d.1 / hypot d.1 d.2 * 1000 / 1000 = d.1 / hypot d.1 d.2
    field_simp
    ring
  · show d.2 / hypot d.1 d.2 * 1000 / 1000 = d.2 / hypot d.1 d.2
    field_simp
    ring
  · show p.position.x + p.size.width / 2 - 10 / 2 + 10 / 2 = p.position.x + p.size.width / 2
    ring
  · show p.position.y + p.size.height / 2 - 10 / 2 + 10 / 2 = p.position.y + p.size.height / 2
    ring

/-- Witness for C1 at the concrete player `mkPlayer (0, 0)` and the
concrete non-zero direction (0, 1). -/
theorem fire_speed_direction_center_witness :
    ∃ b : Bullet, (mkPlayer { x := 0, y := 0 }).fire (0, 1) = some b ∧
      hypot b.velocity.x b.velocity.y = 1000 ∧
      b.velocity.x / 1000 = (0 : ℝ) / hypot 0 1 ∧
      b.velocity.y / 1000 = (1 : ℝ) / hypot 0 1 ∧
      b.position.x + b.size.width / 2
        = (mkPlayer { x := 0, y := 0 }).position.x + (mkPlayer { x := 0, y := 0 }).size.width / 2 ∧
      b.position.y + b.size.height / 2
        = (mkPlayer { x := 0, y := 0 }).position.y + (mkPlayer { x := 0, y := 0 }).size.height / 2 :=
  fire_speed_direction_center (mkPlayer { x := 0, y := 0 }) (0, 1) (by
    intro h
    have h2 := congrArg Prod.snd h
    norm_num at h2)

/-- C2: firing with the zero direction vector (0, 0) hits the
invariant-violation error branch of the bullet constructor (the direction
length is not positive), modelled as `none`: no projectile is ever
returned. -/
theorem fire_zero_direction_throws (p : Player) : p.fire (0, 0) = none := by
  simp [Player.fire, mkBullet, hypot]

/-- C4 (amended): the second of two kill-marking calls on an obstacle
fully overwrites the first — the composite equals the second call alone,
so the death timestamp becomes the second call's timestamp and the color
the second call's color, while the velocity stays zero; repeating the
same call with the same timestamp is a no-op. -/
theorem markHit_second_call_overwrites (a : Asteroid) (t1 t2 t : ℝ) :
    ((a.hit t1).hit t2 = a.hit t2) ∧
    ((a.intersectPlayer t1).intersectPlayer t2 = a.intersectPlayer t2) ∧
    ((a.hit t1).intersectPlayer t2 = a.intersectPlayer t2) ∧
    ((a.intersectPlayer t1).hit t2 = a.hit t2) ∧
    ((a.hit t).hit t = a.hit t) ∧
    ((a.intersectPlayer t).intersectPlayer t = a.intersectPlayer t) ∧
    (((a.hit t1).hit t2).velocity = (a.hit t1).velocity) :=
  ⟨rfl, rfl, rfl, rfl, rfl, rfl, rfl⟩

/-- Counterexample to C4 as stated: an obstacle already carrying death
timestamp 1 gets death timestamp 2 from a second `markHit(2)` call — the
second call is not a no-op. -/
theorem markHit_not_idempotent_cex :
    ((mkAsteroid { x := 0, y := 0 } { x := 3, y := 4 } 0).hit 1).deathTimestamp = some 1 ∧
    (((mkAsteroid { x := 0, y := 0 } { x := 3, y := 4 } 0).hit 1).hit 2).deathTimestamp ≠
      ((mkAsteroid { x := 0, y := 0 } { x := 3, y := 4 } 0).hit 1).deathTimestamp := by
  constructor
  · rfl
  · simp only [mkAsteroid, Asteroid.hit]
    intro h
    have h2 := Option.some.inj h
    norm_num at h2

/-- C5 (amended): for an obstacle with the constructed fade durations
(fade-in 200, fade-out 2000): if it has a non-zero death timestamp d,
`fadeAlpha` is monotonically non-increasing on timestamps at or after d,
equals 1 at d, equals 0 from d + fade-out onward, and stays within
[0, 1] there; if it was never killed, `fadeAlpha` is monotonically
non-decreasing, equals 0 at creation, equals 1 from creation + fade-in
onward, and stays within [0, 1] from creation onward.  (The source's
falsy-0 guard `!this.deathTimestamp` forces the non-zero-death proviso:
an obstacle killed at timestamp exactly 0 is routed to the fade-in
branch.) -/
theorem fadeAlpha_monotone_bounded (a : Asteroid)
    (hIn : a.fadeInDuration = 200) (hOut : a.fadeOutDuration = 2000) :
    (∀ d : ℝ, a.deathTimestamp = some d → d ≠ 0 →
      (∀ t1 t2 : ℝ, d ≤ t1 → t1 ≤ t2 → a.getFade t2 ≤ a.getFade t1) ∧
      a.getFade d = 1 ∧
      (∀ t : ℝ, d + a.fadeOutDuration ≤ t → a.getFade t = 0) ∧
      (∀ t : ℝ, d ≤ t → 0 ≤ a.getFade t ∧ a.getFade t ≤ 1)) ∧
    (a.deathTimestamp = none →
      (∀ t1 t2 : ℝ, t1 ≤ t2 → a.getFade t1 ≤ a.getFade t2) ∧
      a.getFade a.startTimestamp = 0 ∧
      (∀ t : ℝ, a.startTimestamp + a.fadeInDuration ≤ t → a.getFade t = 1) ∧
      (∀ t : ℝ, a.startTimestamp ≤ t → 0 ≤ a.getFade t ∧ a.getFade t ≤ 1)) := by
  constructor
  · intro d hdeath hd0
    have hfade : ∀ t : ℝ, a.getFade t = 1 - min ((t - d) / 2000) 1 := by
      intro t
      simp only [Asteroid.getFade, hdeath]
      rw [if_neg hd0, hOut]
    refine ⟨?_, ?_, ?_, ?_⟩
    · intro t1 t2 _ h12
      rw [hfade, hfade]
      have hmin : min ((t1 - d) / 2000) 1 ≤ min ((t2 - d) / 2000) 1 := by
        refine min_le_min ?_ le_rfl
        have h2000 : (0 : ℝ) < 2000 := by norm_num
        exact (div_le_div_iff_of_pos_right h2000).mpr (by linarith)
      linarith
    · rw [hfade]
      norm_num
    · intro t ht
      rw [hfade]
      have h1 : (1 : ℝ) ≤ (t - d) / 2000 := by
        rw [le_div_iff₀ (by norm_num : (0 : ℝ) < 2000)]
        linarith
      rw [min_eq_right h1]
      ring
    · intro t ht
      rw [hfade]
      have hub := min_le_right ((t - d) / 2000) 1
      have hlb : 0 ≤ min ((t - d) / 2000) 1 :=
        le_min (div_nonneg (by linarith) (by norm_num)) zero_le_one
      constructor <;> linarith
  · intro hdeath
    have hfade : ∀ t : ℝ, a.getFade t = min ((t - a.startTimestamp) / 200) 1 := by
      intro t
      simp only [Asteroid.getFade, hdeath, hIn]
    refine ⟨?_, ?_, ?_, ?_⟩
    · intro t1 t2 h12
      rw [hfade, hfade]
      refine min_le_min ?_ le_rfl
      exact (div_le_div_iff_of_pos_right (by norm_num : (0 : ℝ) < 200)).mpr (by linarith)
    · rw [hfade]
      norm_num
    · intro t ht
      rw [hfade]
      refine min_eq_right ?_
      rw [le_div_iff₀ (by norm_num : (0 : ℝ) < 200)]
      rw [hIn] at ht
      linarith
    · intro t ht
      rw [hfade]
      exact ⟨le_min (div_nonneg (by linarith) (by norm_num)) zero_le_one,
        min_le_right _ _⟩

/-- Witness for C5 at a concrete obstacle created at 100 and killed at
the non-zero timestamp 1000. -/
theorem fadeAlpha_monotone_bounded_witness :
    (∀ d : ℝ, fadeDemoAsteroid.deathTimestamp = some d → d ≠ 0 →
      (∀ t1 t2 : ℝ, d ≤ t1 → t1 ≤ t2 →
        fadeDemoAsteroid.getFade t2 ≤ fadeDemoAsteroid.getFade t1) ∧
      fadeDemoAsteroid.getFade d = 1 ∧
      (∀ t : ℝ, d + fadeDemoAsteroid.fadeOutDuration ≤ t → fadeDemoAsteroid.getFade t = 0) ∧
      (∀ t : ℝ, d ≤ t → 0 ≤ fadeDemoAsteroid.getFade t ∧ fadeDemoAsteroid.getFade t ≤ 1)) ∧
    (fadeDemoAsteroid.deathTimestamp = none →
      (∀ t1 t2 : ℝ, t1 ≤ t2 → fadeDemoAsteroid.getFade t1 ≤ fadeDemoAsteroid.getFade t2) ∧
      fadeDemoAsteroid.getFade fadeDemoAsteroid.startTimestamp = 0 ∧
      (∀ t : ℝ, fadeDemoAsteroid.startTimestamp + fadeDemoAsteroid.fadeInDuration ≤ t →
        fadeDemoAsteroid.getFade t = 1) ∧
      (∀ t : ℝ, fadeDemoAsteroid.startTimestamp ≤ t →
        0 ≤ fadeDemoAsteroid.getFade t ∧ fadeDemoAsteroid.getFade t ≤ 1)) :=
  fadeAlpha_monotone_bounded fadeDemoAsteroid rfl rfl

/-- Counterexample to C5 as stated: an obstacle killed at timestamp
exactly 0 has a death timestamp, yet its fade is 0 at the death
timestamp and rises to 1 — the fade-in branch runs because the death
timestamp 0 is falsy in `!this.deathTimestamp`. -/
theorem fadeAlpha_zero_death_cex :
    zeroDeathAsteroid.deathTimestamp = some 0 ∧
    zeroDeathAsteroid.getFade 0 = 0 ∧
    zeroDeathAsteroid.getFade 400 = 1 := by
  refine ⟨rfl, ?_, ?_⟩
  · simp [zeroDeathAsteroid, mkAsteroid, Asteroid.hit, Asteroid.getFade]
  · simp only [zeroDeathAsteroid, mkAsteroid, Asteroid.hit, Asteroid.getFade]
    norm_num

theorem health_bounds_step (p : Player) (h0 : 0 ≤ p.health) (h1 : p.health ≤ 1)
    (op : HealthOp) :
    0 ≤ (applyHealthOp p op).health ∧ (applyHealthOp p op).health ≤ 1 := by
  cases op
  · simp only [applyHealthOp, Player.hit]
    exact ⟨le_max_left _ _, max_le (by norm_num) (by linarith)⟩
  · simp only [applyHealthOp, Player.heal]
    exact ⟨le_min (by norm_num) (by linarith), min_le_left _ _⟩

theorem runHealthOps_bounds (ops : List HealthOp) (p : Player)
    (h0 : 0 ≤ p.health) (h1 : p.health ≤ 1) :
    0 ≤ (runHealthOps p ops).health ∧ (runHealthOps p ops).health ≤ 1 := by
  induction ops generalizing p with
  | nil => exact ⟨h0, h1⟩
  | cons op rest ih =>
      have h := health_bounds_step p h0 h1 op
      exact ih (applyHealthOp p op) h.1 h.2

/-- C6: under every finite sequence of damage (minus 0.2, floored at 0)
and heal (plus 0.01, capped at 1) calls starting from the constructed
health 1, the health stays in [0, 1]; the player is not alive exactly
when the health is exactly 0; and a hit at health exactly 0.2 yields
health exactly 0. -/
theorem health_clamped_and_alive_iff :
    (∀ (pos : Position) (ops : List HealthOp),
      0 ≤ (runHealthOps (mkPlayer pos) ops).health ∧
        (runHealthOps (mkPlayer pos) ops).health ≤ 1) ∧
    (∀ (pos : Position) (ops : List HealthOp),
      (¬ (runHealthOps (mkPlayer pos) ops).isAlive ↔
        (runHealthOps (mkPlayer pos) ops).health = 0)) ∧
    (∀ q : Player, q.health = 0.2 → (q.hit).health = 0) := by
  refine ⟨?_, ?_, ?_⟩
  · intro pos ops
    exact runHealthOps_bounds ops _ (by norm_num [mkPlayer]) (by norm_num [mkPlayer])
  · intro pos ops
    have hb := runHealthOps_bounds ops (mkPlayer pos) (by norm_num [mkPlayer])
      (by norm_num [mkPlayer])
    unfold Player.isAlive
    constructor
    · intro hn
      exact le_antisymm (not_lt.mp hn) hb.1
    · intro he
      rw [he]
      exact lt_irrefl 0
  · intro q hq
    simp only [Player.hit, hq]
    norm_num

/-- Witness for C6's hit-at-0.2 scenario at a concrete player. -/
theorem health_clamped_and_alive_iff_witness :
    ({ mkPlayer { x := 0, y := 0 } with health := 0.2 } : Player).hit.health = 0 :=
  health_clamped_and_alive_iff.2.2 _ rfl

/-! Field-preservation lemmas for the update pipeline. -/

theorem modePhase_isTouch (keys : Keys) (touch : Option TouchEvent) (g : Game) :
    (modePhase keys touch g).isTouch =
      (if keys.anyPressed then false else if touch.isSome then true else g.isTouch) := by
  unfold modePhase Game.setInputMode
  cases h1 : keys.anyPressed <;> cases h2 : touch.isSome <;> simp [h1, h2]

theorem preInput_isTouch (dt : ℝ) (keys : Keys) (touch : Option TouchEvent) (x : Game) :
    (offscreenPhase (playerIntegratePhase dt (inputPhase keys touch x))).isTouch
      = x.isTouch := rfl

theorem bulletSweep1_isTouch (b : Bullet) (g : Game) :
    (bulletSweep1 b g).isTouch = g.isTouch := rfl

theorem bulletsSweep_isTouch (g : Game) : (bulletsSweep g).isTouch = g.isTouch := by
  unfold bulletsSweep
  suffices hgen : ∀ (l : List Bullet) (g0 : Game),
      (l.foldl (fun acc b => bulletSweep1 b acc) g0).isTouch = g0.isTouch by
    exact hgen g.bullets g
  intro l
  induction l with
  | nil => intro g0; rfl
  | cons b rest ih =>
      intro g0
      rw [List.foldl_cons]
      exact ih (bulletSweep1 b g0)

theorem playerSweep_isTouch (g : Game) : (playerSweep g).isTouch = g.isTouch := rfl

theorem spawnEntities_isTouch (o : Oracle) (dt : ℝ) (x : Game) :
    (spawnFloorCheck o (entitiesIntegratePhase dt x)).isTouch = x.isTouch := by
  unfold spawnFloorCheck
  split <;> rfl

theorem prePhases_destroyed (dt : ℝ) (keys : Keys) (touch : Option TouchEvent) (g : Game) :
    (offscreenPhase (playerIntegratePhase dt (inputPhase keys touch
      (modePhase keys touch g)))).destroyed = g.destroyed := by
  unfold modePhase Game.setInputMode
  cases h1 : keys.anyPressed <;> cases h2 : touch.isSome <;> rfl

theorem prePhases_destroyedAsteroid (dt : ℝ) (keys : Keys) (touch : Option TouchEvent)
    (g : Game) :
    (offscreenPhase (playerIntegratePhase dt (inputPhase keys touch
      (modePhase keys touch g)))).destroyedAsteroid = g.destroyedAsteroid := by
  unfold modePhase Game.setInputMode
  cases h1 : keys.anyPressed <;> cases h2 : touch.isSome <;> rfl

theorem spawnEntities_destroyed (o : Oracle) (dt : ℝ) (x : Game) :
    (spawnFloorCheck o (entitiesIntegratePhase dt x)).destroyed = x.destroyed := by
  unfold spawnFloorCheck
  split <;> rfl

theorem spawnEntities_destroyedAsteroid (o : Oracle) (dt : ℝ) (x : Game) :
    (spawnFloorCheck o (entitiesIntegratePhase dt x)).destroyedAsteroid
      = x.destroyedAsteroid := by
  unfold spawnFloorCheck
  split <;> rfl

theorem bulletSweep1_destroyedEq (b : Bullet) (g : Game)
    (h : g.destroyed = g.destroyedAsteroid.length) :
    (bulletSweep1 b g).destroyed = (bulletSweep1 b g).destroyedAsteroid.length := by
  simp only [bulletSweep1, List.length_append, List.length_map, List.length_reverse]
  omega

theorem bulletsSweep_destroyedEq (g : Game)
    (h : g.destroyed = g.destroyedAsteroid.length) :
    (bulletsSweep g).destroyed = (bulletsSweep g).destroyedAsteroid.length := by
  unfold bulletsSweep
  suffices hgen : ∀ (l : List Bullet) (g0 : Game),
      g0.destroyed = g0.destroyedAsteroid.length →
      (l.foldl (fun acc b => bulletSweep1 b acc) g0).destroyed
        = (l.foldl (fun acc b => bulletSweep1 b acc) g0).destroyedAsteroid.length by
    exact hgen g.bullets g h
  intro l
  induction l with
  | nil => intro g0 h0; exact h0
  | cons b rest ih =>
      intro g0 h0
      rw [List.foldl_cons]
      exact ih (bulletSweep1 b g0) (bulletSweep1_destroyedEq b g0 h0)

theorem playerSweep_destroyedEq (g : Game)
    (h : g.destroyed = g.destroyedAsteroid.length) :
    (playerSweep g).destroyed = (playerSweep g).destroyedAsteroid.length := by
  simp only [playerSweep, List.length_append, List.length_map, List.length_reverse]
  omega

theorem updateG_destroyedEq (dt : ℝ) (keys : Keys) (touch : Option TouchEvent)
    (o : Oracle) (now : ℝ) (g : Game)
    (h : g.destroyed = g.destroyedAsteroid.length) :
    (updateG dt keys touch o now g).destroyed
      = (updateG dt keys touch o now g).destroyedAsteroid.length := by
  unfold updateG
  by_cases halive : g.player.isAlive
  · rw [if_neg (not_not_intro halive)]
    have hpreInv : (offscreenPhase (playerIntegratePhase dt (inputPhase keys touch
        (modePhase keys touch g)))).destroyed
        = (offscreenPhase (playerIntegratePhase dt (inputPhase keys touch
        (modePhase keys touch g)))).destroyedAsteroid.length := by
      rw [prePhases_destroyed, prePhases_destroyedAsteroid]
      exact h
    have hps := playerSweep_destroyedEq _ (bulletsSweep_destroyedEq _ hpreInv)
    rw [spawnEntities_destroyed, spawnEntities_destroyedAsteroid]
    exact hps
  · rw [if_pos halive]
    split
    · rfl
    · exact h

/-- C3 (amended): in every Running-state tick, if any keyboard key is
currently pressed the input mode becomes keyboard — even when a touch
event is present in the same tick, because the source's keyboard `if`
runs after (and overwrites) the touch `if`; otherwise a present touch
event switches the mode to touch; with neither input the mode is
unchanged. -/
theorem inputMode_keyboard_wins (dt : ℝ) (keys : Keys) (touch : Option TouchEvent)
    (o : Oracle) (now : ℝ) (g : Game) (halive : g.player.isAlive) :
    (updateG dt keys touch o now g).isTouch =
      (if keys.anyPressed then false else if touch.isSome then true else g.isTouch) := by
  unfold updateG
  rw [if_neg (not_not_intro halive)]
  rw [spawnEntities_isTouch, playerSweep_isTouch, bulletsSweep_isTouch, preInput_isTouch,
    modePhase_isTouch]

/-- Witness for C3 (amended) at a concrete alive state with only a touch
event present. -/
theorem inputMode_keyboard_wins_witness :
    (updateG 0 ([] : Keys) (some demoTouch) oracle0 0 modeDemoGame).isTouch =
      (if Keys.anyPressed ([] : Keys) then false
       else if (some demoTouch : Option TouchEvent).isSome then true
       else modeDemoGame.isTouch) :=
  inputMode_keyboard_wins 0 [] (some demoTouch) oracle0 0 modeDemoGame (by
    show (0 : ℝ) < 1
    norm_num)

/-- Counterexample to C3 as stated: a Running tick carrying both a touch
event and a pressed key ends in keyboard mode (isTouch = false), not
touch mode. -/
theorem inputMode_both_inputs_cex :
    demoKeys.anyPressed = true ∧
    (some demoTouch : Option TouchEvent).isSome = true ∧
    (updateG 0 demoKeys (some demoTouch) oracle0 0 modeDemoGame).isTouch = false := by
  refine ⟨rfl, rfl, ?_⟩
  have halive : modeDemoGame.player.isAlive := by
    show (0 : ℝ) < 1
    norm_num
  unfold updateG
  rw [if_neg (not_not_intro halive)]
  rw [spawnEntities_isTouch, playerSweep_isTouch, bulletsSweep_isTouch, preInput_isTouch,
    modePhase_isTouch]
  rfl

/-- C8: a tick taken while the ship is dead, with Enter not pressed and
no three-point touch, changes nothing but the stored last-seen timestamp:
the resulting state is the old one with `lastTime` replaced — ship,
bullets, live and destroyed obstacle collections, destroyed-count,
dimensions, and input-mode flag included. -/
theorem gameOver_tick_only_lastTime (g : Game) (t : ℝ) (keys : Keys)
    (touch : Option TouchEvent) (o : Oracle) (now : ℝ)
    (hdead : ¬ g.player.isAlive)
    (henter : keys.pressedKey "Enter" = false)
    (htouch : touch.map (fun te => te.touches.length) ≠ some 3) :
    tickG t keys touch o now g = { g with lastTime := t } := by
  unfold tickG updateG
  have hdead2 : ¬ ({ g with lastTime := t } : Game).player.isAlive := hdead
  have hno : ¬ (keys.pressedKey "Enter" = true ∨
      touch.map (fun te => te.touches.length) = some 3) := by
    rintro (hcase | hcase)
    · rw [henter] at hcase
      exact Bool.false_ne_true hcase
    · exact htouch hcase
  rw [if_pos hdead2, if_neg hno]

/-- Witness for C8 at a concrete dead state with no inputs. -/
theorem gameOver_tick_only_lastTime_witness :
    tickG 9 ([] : Keys) none oracle0 0 deadGame = { deadGame with lastTime := 9 } :=
  gameOver_tick_only_lastTime deadGame 9 [] none oracle0 0
    (by
      show ¬ (0 : ℝ) < 0
      norm_num)
    rfl
    (by simp)

/-- C9 evaluated at the failing input: with the player at (100, 100) and
the second touch point also at client coordinates (100, 100), the touch
interpreter's fire direction is the `0/0` NaN pair (`none` in the model),
and the `!== 0` guard still passes on it, so `fire` is invoked with a
direction that has no non-zero magnitude; the constructor's
`length <= 0` check is false on NaN, so no error is raised and the bullet
gets a non-finite velocity. -/
theorem touch_fire_nan_direction :
    touchGunDirection { x := 100, y := 100 } { x := 100, y := 100 } = none ∧
    touchFireGuardPasses
      (touchGunDirection { x := 100, y := 100 } { x := 100, y := 100 }) := by
  have h : touchGunDirection { x := 100, y := 100 } { x := 100, y := 100 } = none := by
    simp [touchGunDirection, hypot_eq_zero_iff]
  refine ⟨h, ?_⟩
  rw [h]
  trivial

/-! Spawn-floor lemmas. -/

theorem spawnFloorCheck_ge8 (o : Oracle) (g : Game) :
    8 ≤ (spawnFloorCheck o g).asteroids.length := by
  unfold spawnFloorCheck
  split
  · simp only [addAsteroids, List.length_append, List.length_map, List.length_range]
    omega
  · omega

theorem spawnFloorCheck_batch (o : Oracle) (g : Game) (h : g.asteroids.length < 8) :
    (spawnFloorCheck o g).asteroids.length
      = g.asteroids.length + 10 * (1 + g.destroyed / 50) := by
  unfold spawnFloorCheck
  rw [if_pos h]
  simp [addAsteroids]

theorem asteroids_ge8_reachable (g : Game) (h : Reachable g) :
    8 ≤ g.asteroids.length := by
  induction h with
  | init dims now o => norm_num [initialGame, addAsteroids]
  | tick g0 t keys touch o now _ ih =>
      unfold tickG updateG
      by_cases halive : ({ g0 with lastTime := t } : Game).player.isAlive
      · rw [if_neg (not_not_intro halive)]
        exact spawnFloorCheck_ge8 _ _
      · rw [if_pos halive]
        split
        · norm_num [restartG, addAsteroids]
        · exact ih
  | resize g0 dims _ ih => exact ih

/-- C7: every reachable state — the constructor state and the state after
every completed update phase — has at least 8 live obstacles; and
whenever the live count is below 8 at the spawn-floor check, the spawned
batch is exactly 10 * (1 + floor(destroyed-count / 50)). -/
theorem spawn_floor_invariant :
    (∀ g : Game, Reachable g → 8 ≤ g.asteroids.length) ∧
    (∀ (o : Oracle) (g : Game), g.asteroids.length < 8 →
      (spawnFloorCheck o g).asteroids.length
        = g.asteroids.length + 10 * (1 + g.destroyed / 50)) :=
  ⟨asteroids_ge8_reachable, spawnFloorCheck_batch⟩

/-- Witness for C7: the initial state satisfies the floor, and the
spec's example — 55 destroyed, 7 live — spawns a batch of exactly 20. -/
theorem spawn_floor_invariant_witness :
    8 ≤ (initialGame { width := 800, height := 600 } 0 oracle0).asteroids.length ∧
    (spawnFloorCheck oracle0 batchDemoGame).asteroids.length = 7 + 20 := by
  constructor
  · exact spawn_floor_invariant.1 _ (Reachable.init _ _ _)
  · have h := spawn_floor_invariant.2 oracle0 batchDemoGame (by simp [batchDemoGame])
    rw [h]
    norm_num [batchDemoGame]

/-- C10: in every reachable simulation state, the destroyed-count equals
the length of the destroyed/fading obstacle collection, and the score
readout painted by the UI — which renders that collection's length —
always displays the destroyed-count. -/
theorem destroyed_count_matches (g : Game) (h : Reachable g) :
    g.destroyed = g.destroyedAsteroid.length ∧ scoreReadoutCount g = g.destroyed := by
  have main : g.destroyed = g.destroyedAsteroid.length := by
    induction h with
    | init dims now o => rfl
    | tick g0 t keys touch o now _ ih =>
        exact updateG_destroyedEq (t - g0.lastTime) keys touch o now
          { g0 with lastTime := t } ih
    | resize g0 dims _ ih => exact ih
  exact ⟨main, main.symm⟩

/-- Witness for C10 at the concrete initial state. -/
theorem destroyed_count_matches_witness :
    (initialGame { width := 800, height := 600 } 0 oracle0).destroyed
      = (initialGame { width := 800, height := 600 } 0 oracle0).destroyedAsteroid.length ∧
    scoreReadoutCount (initialGame { width := 800, height := 600 } 0 oracle0)
      = (initialGame { width := 800, height := 600 } 0 oracle0).destroyed :=
  destroyed_count_matches _ (Reachable.init _ _ _)

end AsteroidsGame
